import Mathlib

/-!
Shallow embedding of the Datanyx process supervisor (`start_all.py`) and of the
pure helpers of the ML API (`Backend/ML model/ml_api.py`).

Conventions of the embedding:
* OS effects are captured by explicit environments (`Net`, `Env`, `OllamaEnv`):
  a field of the environment records what the corresponding OS call would
  return at that point of the run.
* Every function also returns the trace of observable events (log lines,
  spawn requests, sleeps) it produces, so "does not spawn", "logs X" and
  "visits in order" are statements about the trace.
* Time is discretised in half-second ticks where the polling loop of
  `wait_for_service` is concerned: the poll at loop iteration `k` happens at
  elapsed time `0.5 * k` seconds, so "within `t` seconds" is about ticks
  `k` with `k ≤ 2 * t` and the strict `while time.time() - start < timeout`
  guard admits exactly the ticks `k < 2 * t`.
-/

namespace Datanyx

/-- State of the local TCP stack as seen by `socket.connect_ex`:
`connectEx port` is the error code returned by
`s.connect_ex(("localhost", port))`; `0` means the connection succeeded. -/
structure Net where
  connectEx : Nat → Int

/-- `is_port_in_use` (start_all.py lines 61-64): opens a transient socket and
returns whether `connect_ex(("localhost", port))` returned `0`.
`connect_ex` reports connection errors as a nonzero code instead of raising,
so the function is total. -/
def is_port_in_use (net : Net) (port : Nat) : Bool :=
  net.connectEx port == 0

/-- One service entry of the `SERVICES` table (start_all.py lines 30-55). -/
structure ServiceConfig where
  name : String
  port : Nat
  cwd : String
  cmd_windows : List String
  cmd_unix : List String
  health_url : String

def SERVICES_ml_api : ServiceConfig :=
  { name := "🧠 ML Yield Predictor", port := 3002, cwd := "Backend/ML model",
    cmd_windows := ["python", "ml_api.py"], cmd_unix := ["python3", "ml_api.py"],
    health_url := "http://localhost:3002/api/health" }

def SERVICES_chatbot_backend : ServiceConfig :=
  { name := "🍄 Chatbot Backend", port := 3001, cwd := "Backend/server",
    cmd_windows := ["npm", "run", "dev"], cmd_unix := ["npm", "run", "dev"],
    health_url := "http://localhost:3001/api/health" }

def SERVICES_frontend : ServiceConfig :=
  { name := "🌐 Frontend (AWS_test)", port := 5173, cwd := "AWS_test",
    cmd_windows := ["npm", "run", "dev"], cmd_unix := ["npm", "run", "dev"],
    health_url := "http://localhost:5173" }

/-- Environment of one `start_service` call: platform, TCP stack, filesystem
and the outcome the OS would give to a `subprocess.Popen` request
(`Except.error e` models `Popen` raising with message `e`; `Except.ok p`
models a successful spawn returning handle `p`). -/
structure Env where
  isWindows : Bool
  net : Net
  dirExists : String → Bool
  spawn : List String → String → Except String Nat

/-- Observable events of `start_service`: its three log lines and the
starting banner (start_all.py lines 119, 124, 130, 151). -/
inductive LaunchEvent where
  | portInUseWarn (name : String) (port : Nat)
  | dirMissingErr (name : String) (cwd : String)
  | startingMsg (name : String) (port : Nat)
  | spawnFailMsg (name : String) (err : String)
deriving DecidableEq

/-- Result of one `start_service` call: `ret` is the Python return value
(`Popen | None`), `spawned` the OS processes actually created by the call,
`events` the log lines printed, in order. -/
structure LaunchResult where
  ret : Option Nat
  spawned : List Nat
  events : List LaunchEvent
deriving DecidableEq

/-- `start_service` (start_all.py lines 111-152), translated branch by
branch: port check first, then directory check, then platform-dependent
command selection and the guarded `Popen` call whose exception is caught
and turned into a log line plus `None`. -/
def start_service (env : Env) (cfg : ServiceConfig) : LaunchResult :=
  if is_port_in_use env.net cfg.port then
    { ret := none, spawned := [], events := [.portInUseWarn cfg.name cfg.port] }
  else if !env.dirExists cfg.cwd then
    { ret := none, spawned := [], events := [.dirMissingErr cfg.name cfg.cwd] }
  else
    let cmd := if env.isWindows then cfg.cmd_windows else cfg.cmd_unix
    match env.spawn cmd cfg.cwd with
    | .ok p =>
        { ret := some p, spawned := [p], events := [.startingMsg cfg.name cfg.port] }
    | .error e =>
        { ret := none, spawned := [],
          events := [.startingMsg cfg.name cfg.port, .spawnFailMsg cfg.name e] }

/-- The poll made at tick `k` of the wait loop: the TCP stack may change
between ticks, so it is a function of the tick. -/
def waitProbe (netAt : Nat → Net) (port : Nat) (k : Nat) : Bool :=
  is_port_in_use (netAt k) port

/-- The `while time.time() - start_time < timeout` loop of
`wait_for_service` (start_all.py lines 157-162): at tick `k` (elapsed
`0.5 * k` seconds) the guard holds iff `0.5 * k < timeout`, i.e. iff
`k < 2 * timeout`, which is the fuel. Returns the result together with the
number of polls performed. -/
def waitLoop (netAt : Nat → Net) (port : Nat) : Nat → Nat → Bool × Nat
  | 0, _ => (false, 0)
  | fuel + 1, k =>
    if waitProbe netAt port k then (true, 1)
    else ((waitLoop netAt port fuel (k + 1)).1, (waitLoop netAt port fuel (k + 1)).2 + 1)

/-- `wait_for_service` (start_all.py lines 155-162): polls `is_port_in_use`
every 0.5 seconds while strictly less than `timeout` seconds have elapsed.
First component: the returned boolean; second: how many polls were made. -/
def wait_for_service (netAt : Nat → Net) (port : Nat) (timeout : Nat) : Bool × Nat :=
  waitLoop netAt port (2 * timeout) 0

/-- Behaviour of one tracked process under the cleanup calls:
whether `proc.terminate()` raises, whether the process exits within the
5-second grace window of `proc.wait(timeout=5)` (if not, `wait` raises
`TimeoutExpired`), and whether `proc.kill()` raises (its exception is
swallowed by `pass` either way). -/
structure ProcBehavior where
  terminateRaises : Bool
  exitsWithinGrace : Bool
  killRaises : Bool
deriving DecidableEq

/-- Process-lifecycle calls issued by `cleanup`, tagged with the index of
the process in `running_processes`; `waitGrace i secs` is
`proc.wait(timeout=secs)`. -/
inductive CleanupAct where
  | term (i : Nat)
  | waitGrace (i : Nat) (secs : Nat)
  | kill (i : Nat)
deriving DecidableEq

/-- Index of the process an action is addressed to. -/
def CleanupAct.idx : CleanupAct → Nat
  | .term i => i
  | .waitGrace i _ => i
  | .kill i => i

/-- The `try: terminate; wait(5) except: try: kill except: pass` body of the
cleanup loop (start_all.py lines 168-176) for the `i`-th tracked process:
the calls issued, in order. If `terminate` raises, `wait` is never reached
and `kill` is attempted; if `wait` times out, `kill` is attempted; a raise
from `kill` is swallowed, so the recorded calls are the same either way. -/
def cleanupOne (i : Nat) (b : ProcBehavior) : List CleanupAct :=
  if b.terminateRaises then [.term i, .kill i]
  else if b.exitsWithinGrace then [.term i, .waitGrace i 5]
  else [.term i, .waitGrace i 5, .kill i]

/-- The cleanup loop over `running_processes[i:]`, issuing each process its
`cleanupOne` calls in list order. -/
def cleanupFrom (i : Nat) : List ProcBehavior → List CleanupAct
  | [] => []
  | b :: rest => cleanupOne i b ++ cleanupFrom (i + 1) rest

/-- `cleanup` (start_all.py lines 165-178): the calls issued over the whole
tracked list, and the `sys.exit` status (always `0`, line 178). -/
def cleanup (ps : List ProcBehavior) : List CleanupAct × Nat :=
  (cleanupFrom 0 ps, 0)

/-- `cleanup` is installed directly as the SIGINT/SIGTERM handler
(start_all.py lines 204-205) with no guard, so a second signal delivered
while an earlier invocation is inside the `try` block of process `i`
(here: just after its `terminate` call returned) re-invokes `cleanup` as a
nested call. The nested invocation runs the full loop and its
`sys.exit(0)` raises `SystemExit` back inside the outer `try`, where the
bare `except:` catches it: the outer invocation then falls through to
`kill` on process `i` and continues with the remaining processes before
reaching its own `sys.exit(0)`. -/
def cleanup_reentrant (ps : List ProcBehavior) (i : Nat) : List CleanupAct × Nat :=
  (cleanupFrom 0 (ps.take i) ++ [.term i]
    ++ cleanupFrom 0 ps
    ++ [.kill i] ++ cleanupFrom (i + 1) (ps.drop (i + 1)), 0)

/-- Outcome the OS gives to the `subprocess.Popen(["ollama", "serve"], ...)`
request in `start_ollama`: success, `FileNotFoundError` (binary not
installed), or some other exception with message `msg`. -/
inductive OllamaSpawn where
  | ok
  | notFound
  | otherErr (msg : String)
deriving DecidableEq

/-- Environment of the Ollama bootstrap: whether the
`http://localhost:11434/api/tags` probe of `check_ollama` answers with
status 200 before the bootstrap, the outcome of the spawn request, and
whether the probe answers after the 3-second grace sleep. -/
structure OllamaEnv where
  healthyBefore : Bool
  spawnRes : OllamaSpawn
  healthyAfter : Bool
deriving DecidableEq

/-- Observable events of the bootstrap: health probes (with their result),
the spawn request, sleeps, and the four log lines of `start_ollama`. -/
inductive OllamaEvent where
  | probe (result : Bool)
  | spawnRequest
  | sleepSecs (n : Nat)
  | startedOkMsg
  | mayNotHaveStartedMsg
  | notFoundMsg
  | failedMsg (msg : String)
deriving DecidableEq

/-- `check_ollama` (start_all.py lines 67-75): probes the fixed health
endpoint, returns whether it answered 200; any exception is caught and
turned into `false`. `healthy` is the state of the runtime at the probe. -/
def check_ollama (healthy : Bool) : Bool := healthy

/-- `start_ollama` (start_all.py lines 78-108): spawn the runtime detached,
sleep 3 seconds, re-probe once via `check_ollama`; `FileNotFoundError`
and any other exception are caught and turned into `false`. -/
def start_ollama (env : OllamaEnv) : Bool × List OllamaEvent :=
  match env.spawnRes with
  | .notFound => (false, [.spawnRequest, .notFoundMsg])
  | .otherErr msg => (false, [.spawnRequest, .failedMsg msg])
  | .ok =>
    if check_ollama env.healthyAfter then
      (true, [.spawnRequest, .sleepSecs 3, .probe true, .startedOkMsg])
    else
      (false, [.spawnRequest, .sleepSecs 3, .probe false, .mayNotHaveStartedMsg])

/-- The Ollama step of `main` (start_all.py lines 210-216): probe first;
no-op success when the runtime already answers, otherwise `start_ollama`. -/
def ensure_runtime (env : OllamaEnv) : Bool × List OllamaEvent :=
  if check_ollama env.healthyBefore then (true, [.probe true])
  else
    let r := start_ollama env
    (r.1, .probe false :: r.2)

/-- Parsed command-line flags of `main` (start_all.py lines 198-201). -/
structure Args where
  no_frontend : Bool
  no_ollama : Bool

/-- Events of the startup phase of `main`: the Ollama step, each
`start_service` call (by service key, with its result), the settle sleeps,
and which process handles get appended to `running_processes`. -/
inductive MainEvent where
  | ollamaSkipped
  | ollamaAlreadyRunning
  | ollamaBoot (result : Bool)
  | serviceCall (key : String) (ret : Option Nat)
  | settleSleep (secs : Nat)
  | track (handle : Nat)
deriving DecidableEq

/-- The startup phase of `main` (start_all.py lines 210-240): the Ollama
step, then unconditionally `start_service` for the ML API and the chatbot
backend (each followed, when a process was returned, by tracking it and a
2-second settle sleep), then the frontend unless `--no-frontend`, then the
final 3-second settle sleep. No branch consults the Ollama result. -/
def main_startup (args : Args) (oenv : OllamaEnv) (senv : Env) : List MainEvent :=
  (if args.no_ollama then [.ollamaSkipped]
   else if check_ollama oenv.healthyBefore then [.ollamaAlreadyRunning]
   else [.ollamaBoot (start_ollama oenv).1]) ++
  (let r := start_service senv SERVICES_ml_api
   .serviceCall "ml_api" r.ret ::
     match r.ret with
     | some p => [.track p, .settleSleep 2]
     | none => []) ++
  (let r := start_service senv SERVICES_chatbot_backend
   .serviceCall "chatbot_backend" r.ret ::
     match r.ret with
     | some p => [.track p, .settleSleep 2]
     | none => []) ++
  (if args.no_frontend then []
   else
     let r := start_service senv SERVICES_frontend
     .serviceCall "frontend" r.ret ::
       match r.ret with
       | some p => [.track p]
       | none => []) ++
  [.settleSleep 3]

/-- The service keys `main` attempts to launch, in call order. -/
def serviceCalls (trace : List MainEvent) : List String :=
  trace.filterMap fun e =>
    match e with
    | .serviceCall key _ => some key
    | _ => none

end Datanyx

namespace MlApi

/-- The record built by `classify_yield` (ml_api.py lines 44-81). -/
structure YieldInfo where
  category : String
  color : String
  description : String
  harvest_cycle : Int
deriving DecidableEq

/-- `classify_yield` (ml_api.py lines 44-81), branch by branch: the final
`else` catches every value other than 6, 5, 4. -/
def classify_yield (harvest_cycle : Int) : YieldInfo :=
  if harvest_cycle = 6 then
    { category := "HIGH", color := "#4ade80",
      description := "Excellent conditions! Expected high yield.",
      harvest_cycle := harvest_cycle }
  else if harvest_cycle = 5 then
    { category := "GOOD", color := "#a3e635",
      description := "Good conditions. Healthy yield expected.",
      harvest_cycle := harvest_cycle }
  else if harvest_cycle = 4 then
    { category := "MEDIUM", color := "#fbbf24",
      description := "Moderate conditions. Some adjustments recommended.",
      harvest_cycle := harvest_cycle }
  else
    { category := "LOW", color := "#f87171",
      description := "Suboptimal conditions. Significant improvements needed.",
      harvest_cycle := harvest_cycle }

/-- `MUSHROOM_VARIETIES` (ml_api.py line 41). -/
def MUSHROOM_VARIETIES : List String :=
  ["Button", "Lions Mane", "Oyster", "Reishi", "Shiitake"]

/-- The JSON body of a `/api/predict` request, restricted to the keys
`prepare_features` consults; `none` models an absent key (`dict.get`
then yields the default). Numeric values are modelled as integers. -/
structure PredictInput where
  species : Option String
  humidity_pct : Option Int
  co2_ppm : Option Int
  substrate_moisture : Option Int
  light_lux : Option Int
  water_quality_index : Option Int
  temperature_c : Option Int

/-- The feature dictionary produced by `prepare_features`: the six
environmental readings plus the five one-hot variety indicators, in the
training order of `FEATURES` (ml_api.py lines 26-38). -/
structure Features where
  humidity_pct : Int
  CO2_ppm : Int
  substrate_moisture_pct : Int
  light_lux : Int
  water_quality_index : Int
  temp_C : Int
  mushroom_variety_Button : Int
  mushroom_variety_LionsMane : Int
  mushroom_variety_Oyster : Int
  mushroom_variety_Reishi : Int
  mushroom_variety_Shiitake : Int
deriving DecidableEq

/-- `1 if species == variety else 0` (ml_api.py line 102). -/
def oneHot (species variety : String) : Int :=
  if species = variety then 1 else 0

/-- `prepare_features` (ml_api.py lines 84-104): every field is read with
`dict.get` and a fixed default (`species` defaulting to `"Oyster"`), and
the five variety indicators are one-hot encoded from `species`. -/
def prepare_features (data : PredictInput) : Features :=
  let species := data.species.getD "Oyster"
  { humidity_pct := data.humidity_pct.getD 85
    CO2_ppm := data.co2_ppm.getD 800
    substrate_moisture_pct := data.substrate_moisture.getD 65
    light_lux := data.light_lux.getD 200
    water_quality_index := data.water_quality_index.getD 80
    temp_C := data.temperature_c.getD 22
    mushroom_variety_Button := oneHot species "Button"
    mushroom_variety_LionsMane := oneHot species "Lions Mane"
    mushroom_variety_Oyster := oneHot species "Oyster"
    mushroom_variety_Reishi := oneHot species "Reishi"
    mushroom_variety_Shiitake := oneHot species "Shiitake" }

/-- The five one-hot fields of a feature record, in `MUSHROOM_VARIETIES`
order. -/
def oneHotFields (f : Features) : List Int :=
  [f.mushroom_variety_Button, f.mushroom_variety_LionsMane,
   f.mushroom_variety_Oyster, f.mushroom_variety_Reishi,
   f.mushroom_variety_Shiitake]

end MlApi

namespace Datanyx

/-! Concrete environments used as witnesses and counterexample inputs. -/

/-- Environment where every port accepts connections (and everything else
would succeed). -/
def envPortOpen : Env :=
  { isWindows := false, net := ⟨fun _ => 0⟩,
    dirExists := fun _ => true, spawn := fun _ _ => .ok 7 }

/-- Environment where no port accepts connections and no directory exists. -/
def envDirMissing : Env :=
  { isWindows := false, net := ⟨fun _ => 111⟩,
    dirExists := fun _ => false, spawn := fun _ _ => .ok 7 }

/-- Environment where every port accepts connections and no directory
exists: both precondition failures hold at once. -/
def envPortOpenDirMissing : Env :=
  { isWindows := false, net := ⟨fun _ => 0⟩,
    dirExists := fun _ => false, spawn := fun _ _ => .ok 7 }

/-- Environment where ports are closed and directories exist but the
`Popen` request raises. -/
def envSpawnFails : Env :=
  { isWindows := false, net := ⟨fun _ => 111⟩,
    dirExists := fun _ => true,
    spawn := fun _ _ => .error "No such file or directory" }

/-- Environment where ports are closed, directories exist and spawning
succeeds. -/
def envAllClear : Env :=
  { isWindows := false, net := ⟨fun _ => 111⟩,
    dirExists := fun _ => true, spawn := fun _ _ => .ok 7 }

/-- Claim C1: for every service descriptor whose port is already open at
the time of the call, `start_service` returns the skipped outcome (`None`
plus the "already in use" warning, not a failure line) and spawns no OS
process. -/
theorem start_service_port_open_skips (env : Env) (cfg : ServiceConfig)
    (h : is_port_in_use env.net cfg.port = true) :
    start_service env cfg =
      { ret := none, spawned := [],
        events := [.portInUseWarn cfg.name cfg.port] } := by
  simp [start_service, h]

/-- Claim C1, witness: the ML API descriptor against an environment whose
port 3002 already accepts connections. -/
theorem start_service_port_open_skips_witness :
    is_port_in_use envPortOpen.net SERVICES_ml_api.port = true ∧
    start_service envPortOpen SERVICES_ml_api =
      { ret := none, spawned := [],
        events := [.portInUseWarn SERVICES_ml_api.name SERVICES_ml_api.port] } :=
  ⟨rfl, start_service_port_open_skips envPortOpen SERVICES_ml_api rfl⟩

/-- Claim C2, counterexample: a descriptor whose working directory does not
exist while its port is simultaneously already open. The port check runs
first (start_all.py line 118), so `start_service` returns the port-in-use
skip, not the missing-directory failure the claim promises for every such
descriptor. -/
theorem start_service_dir_missing_cex :
    envPortOpenDirMissing.dirExists SERVICES_ml_api.cwd = false ∧
    (start_service envPortOpenDirMissing SERVICES_ml_api).events =
      [.portInUseWarn SERVICES_ml_api.name SERVICES_ml_api.port] ∧
    (start_service envPortOpenDirMissing SERVICES_ml_api).events ≠
      [.dirMissingErr SERVICES_ml_api.name SERVICES_ml_api.cwd] := by
  refine ⟨rfl, rfl, ?_⟩
  intro h
  simp [start_service, is_port_in_use, envPortOpenDirMissing] at h

/-- Claim C2 (amended): for every descriptor whose port is not already open
and whose working directory does not exist, `start_service` returns the
missing-directory failure and does not spawn. -/
theorem start_service_dir_missing (env : Env) (cfg : ServiceConfig)
    (hp : is_port_in_use env.net cfg.port = false)
    (hd : env.dirExists cfg.cwd = false) :
    start_service env cfg =
      { ret := none, spawned := [],
        events := [.dirMissingErr cfg.name cfg.cwd] } := by
  simp [start_service, hp, hd]

/-- Claim C2, witness: the frontend descriptor against an environment with
closed ports and no directories. -/
theorem start_service_dir_missing_witness :
    is_port_in_use envDirMissing.net SERVICES_frontend.port = false ∧
    envDirMissing.dirExists SERVICES_frontend.cwd = false ∧
    start_service envDirMissing SERVICES_frontend =
      { ret := none, spawned := [],
        events := [.dirMissingErr SERVICES_frontend.name SERVICES_frontend.cwd] } :=
  ⟨rfl, rfl, start_service_dir_missing envDirMissing SERVICES_frontend rfl rfl⟩

/-- Claim C5: `is_port_in_use` returns true iff the `connect_ex` attempt to
localhost succeeded (code 0), and false on any connection error (any
nonzero code); it is a total function of the probe result — `connect_ex`
reports errors as codes rather than raising — with no effect beyond the
transient socket, which the embedding renders by its purity in `Net`. -/
theorem is_port_in_use_spec (net : Net) (port : Nat) :
    (is_port_in_use net port = true ↔ net.connectEx port = 0) ∧
    (is_port_in_use net port = false ↔ net.connectEx port ≠ 0) := by
  constructor <;> simp [is_port_in_use]

/-- Claim C6, counterexample: the Python return value of `start_service` is
`None` in all three non-spawn outcomes — port already in use, working
directory missing, spawn error — so the returned value does not
distinguish them; only the logged events differ. -/
theorem start_service_ret_indistinguishable_cex :
    is_port_in_use envPortOpen.net SERVICES_ml_api.port = true ∧
    is_port_in_use envDirMissing.net SERVICES_ml_api.port = false ∧
    envDirMissing.dirExists SERVICES_ml_api.cwd = false ∧
    is_port_in_use envSpawnFails.net SERVICES_ml_api.port = false ∧
    envSpawnFails.dirExists SERVICES_ml_api.cwd = true ∧
    envSpawnFails.spawn SERVICES_ml_api.cmd_unix SERVICES_ml_api.cwd =
      .error "No such file or directory" ∧
    (start_service envPortOpen SERVICES_ml_api).ret = none ∧
    (start_service envDirMissing SERVICES_ml_api).ret = none ∧
    (start_service envSpawnFails SERVICES_ml_api).ret = none :=
  ⟨rfl, rfl, rfl, rfl, rfl, rfl, rfl, rfl, rfl⟩

/-- Claim C6 (amended): the three non-spawn outcomes of `start_service` are
each non-fatal — the call returns `None` instead of propagating an
exception — and they are distinguished from one another by the logged
event (port-in-use warning, missing-directory error, spawn-failure error),
not by the returned value, which is `None` in all three cases. -/
theorem start_service_outcomes (env : Env) (cfg : ServiceConfig) :
    (is_port_in_use env.net cfg.port = true →
      start_service env cfg =
        { ret := none, spawned := [],
          events := [.portInUseWarn cfg.name cfg.port] }) ∧
    (is_port_in_use env.net cfg.port = false → env.dirExists cfg.cwd = false →
      start_service env cfg =
        { ret := none, spawned := [],
          events := [.dirMissingErr cfg.name cfg.cwd] }) ∧
    (∀ e, is_port_in_use env.net cfg.port = false → env.dirExists cfg.cwd = true →
      env.spawn (if env.isWindows then cfg.cmd_windows else cfg.cmd_unix) cfg.cwd =
        .error e →
      start_service env cfg =
        { ret := none, spawned := [],
          events := [.startingMsg cfg.name cfg.port, .spawnFailMsg cfg.name e] }) ∧
    (∀ e : String,
      ([LaunchEvent.portInUseWarn cfg.name cfg.port] ≠
        [LaunchEvent.dirMissingErr cfg.name cfg.cwd]) ∧
      ([LaunchEvent.portInUseWarn cfg.name cfg.port] ≠
        [LaunchEvent.startingMsg cfg.name cfg.port, .spawnFailMsg cfg.name e]) ∧
      ([LaunchEvent.dirMissingErr cfg.name cfg.cwd] ≠
        [LaunchEvent.startingMsg cfg.name cfg.port, .spawnFailMsg cfg.name e])) := by
  refine ⟨?_, ?_, ?_, ?_⟩
  · intro h; simp [start_service, h]
  · intro hp hd; simp [start_service, hp, hd]
  · intro e hp hd hs; simp [start_service, hp, hd, hs]
  · intro e; refine ⟨by simp, by simp, by simp⟩

/-- Claim C6, witness: the three conjuncts instantiated at concrete
environments for the ML API descriptor. -/
theorem start_service_outcomes_witness :
    start_service envPortOpen SERVICES_ml_api =
      { ret := none, spawned := [],
        events := [.portInUseWarn SERVICES_ml_api.name SERVICES_ml_api.port] } ∧
    start_service envDirMissing SERVICES_ml_api =
      { ret := none, spawned := [],
        events := [.dirMissingErr SERVICES_ml_api.name SERVICES_ml_api.cwd] } ∧
    start_service envSpawnFails SERVICES_ml_api =
      { ret := none, spawned := [],
        events := [.startingMsg SERVICES_ml_api.name SERVICES_ml_api.port,
                   .spawnFailMsg SERVICES_ml_api.name "No such file or directory"] } :=
  ⟨(start_service_outcomes envPortOpen SERVICES_ml_api).1 rfl,
   (start_service_outcomes envDirMissing SERVICES_ml_api).2.1 rfl rfl,
   (start_service_outcomes envSpawnFails SERVICES_ml_api).2.2.1
     "No such file or directory" rfl rfl rfl⟩

/-! Cleanup helper lemmas. -/

/-- Every call issued by `cleanupOne i b` addresses process `i`. -/
theorem cleanupOne_idx (i : Nat) (b : ProcBehavior) :
    ∀ a ∈ cleanupOne i b, CleanupAct.idx a = i := by
  intro a ha
  cases hb : b.terminateRaises <;> cases he : b.exitsWithinGrace <;>
      simp [cleanupOne, hb, he] at ha
  · rcases ha with rfl | rfl | rfl <;> rfl
  · rcases ha with rfl | rfl <;> rfl
  · rcases ha with rfl | rfl <;> rfl
  · rcases ha with rfl | rfl <;> rfl

/-- Every call issued by the loop from position `i` on addresses a process
at or beyond position `i`. -/
theorem cleanupFrom_idx_ge (ps : List ProcBehavior) :
    ∀ i a, a ∈ cleanupFrom i ps → i ≤ CleanupAct.idx a := by
  induction ps with
  | nil => intro i a ha; simp [cleanupFrom] at ha
  | cons b rest ih =>
    intro i a ha
    rw [cleanupFrom] at ha
    rcases List.mem_append.mp ha with h | h
    · exact Nat.le_of_eq (cleanupOne_idx i b a h).symm
    · exact Nat.le_trans (Nat.le_succ i) (ih (i + 1) a h)

/-- A list all of whose entries equal `i` is sorted. -/
theorem sorted_of_all_eq {l : List Nat} {i : Nat} (h : ∀ x ∈ l, x = i) :
    l.Sorted (· ≤ ·) := by
  induction l with
  | nil => simp
  | cons x xs ih =>
    rw [List.sorted_cons]
    constructor
    · intro y hy
      rw [h x (by simp), h y (by simp [hy])]
    · exact ih fun y hy => h y (by simp [hy])

/-- The indices addressed by the cleanup loop are nondecreasing: processes
are visited in insertion order. -/
theorem cleanupFrom_sorted (ps : List ProcBehavior) :
    ∀ i, ((cleanupFrom i ps).map CleanupAct.idx).Sorted (· ≤ ·) := by
  induction ps with
  | nil => intro i; simp [cleanupFrom]
  | cons b rest ih =>
    intro i
    rw [cleanupFrom, List.map_append]
    refine List.pairwise_append.mpr ⟨?_, ih (i + 1), ?_⟩
    · exact sorted_of_all_eq fun x hx => by
        rcases List.mem_map.mp hx with ⟨a, ha, rfl⟩
        exact cleanupOne_idx i b a ha
    · intro x hx y hy
      rcases List.mem_map.mp hx with ⟨a, ha, rfl⟩
      rcases List.mem_map.mp hy with ⟨c, hc, rfl⟩
      have h1 := cleanupOne_idx i b a ha
      have h2 := cleanupFrom_idx_ge rest (i + 1) c hc
      omega

/-- The calls for the process at position `i` appear contiguously inside
the full cleanup run. -/
theorem cleanupFrom_infix (ps : List ProcBehavior) :
    ∀ j i b, ps[i]? = some b →
      List.IsInfix (cleanupOne (j + i) b) (cleanupFrom j ps) := by
  induction ps with
  | nil => intro j i b h; simp at h
  | cons c rest ih =>
    intro j i b h
    cases i with
    | zero =>
      simp at h
      subst h
      rw [cleanupFrom]
      exact ⟨[], cleanupFrom (j + 1) rest, by simp⟩
    | succ i' =>
      simp at h
      rcases ih (j + 1) i' b h with ⟨s, t, hst⟩
      rw [cleanupFrom]
      refine ⟨cleanupOne j c ++ s, t, ?_⟩
      rw [show j + (i' + 1) = j + 1 + i' by omega]
      simp [List.append_assoc, hst]

/-- `terminate` is requested for every process, whatever its behaviour. -/
theorem term_mem_cleanupOne (i : Nat) (b : ProcBehavior) :
    CleanupAct.term i ∈ cleanupOne i b := by
  cases hb : b.terminateRaises <;> cases he : b.exitsWithinGrace <;>
    simp [cleanupOne, hb, he]

/-- Claim C3: `cleanup` visits the tracked processes in insertion order
(each process's calls appear contiguously, and the addressed indices are
nondecreasing), requests graceful termination with a wait of up to 5
seconds, force-kills a process that has not exited within the grace
window, swallows per-process exceptions so that every remaining process is
still visited, and always exits with status 0 — in particular
`cleanup [] = ([], 0)`. -/
theorem cleanup_spec :
    (cleanup ([] : List ProcBehavior) = ([], 0)) ∧
    (∀ ps, (cleanup ps).2 = 0) ∧
    (∀ ps i b, ps[i]? = some b → List.IsInfix (cleanupOne i b) (cleanup ps).1) ∧
    (∀ ps i b, ps[i]? = some b → CleanupAct.term i ∈ (cleanup ps).1) ∧
    (∀ ps, ((cleanup ps).1.map CleanupAct.idx).Sorted (· ≤ ·)) ∧
    (∀ i b, b.terminateRaises = false → CleanupAct.waitGrace i 5 ∈ cleanupOne i b) ∧
    (∀ i b, b.terminateRaises = false → b.exitsWithinGrace = true →
      cleanupOne i b = [.term i, .waitGrace i 5]) ∧
    (∀ i b, b.exitsWithinGrace = false → CleanupAct.kill i ∈ cleanupOne i b) := by
  refine ⟨rfl, fun ps => rfl, ?_, ?_, ?_, ?_, ?_, ?_⟩
  · intro ps i b h
    have := cleanupFrom_infix ps 0 i b h
    simpa [cleanup] using this
  · intro ps i b h
    have hinf := cleanupFrom_infix ps 0 i b h
    have hmem : CleanupAct.term (0 + i) ∈ cleanupOne (0 + i) b :=
      term_mem_cleanupOne (0 + i) b
    have := hinf.subset hmem
    simpa [cleanup] using this
  · intro ps
    simpa [cleanup] using cleanupFrom_sorted ps 0
  · intro i b ht
    cases he : b.exitsWithinGrace <;> simp [cleanupOne, ht, he]
  · intro i b ht he
    simp [cleanupOne, ht, he]
  · intro i b he
    cases ht : b.terminateRaises <;> simp [cleanupOne, ht, he]

/-- Claim C3, witness: two tracked processes, the first graceful, the
second stuck past the grace window with a raising `kill`; both are visited,
the stuck one is force-killed, and the exit status is 0 (also on the empty
list). -/
theorem cleanup_spec_witness :
    cleanup ([] : List ProcBehavior) = ([], 0) ∧
    CleanupAct.term 0 ∈ (cleanup [⟨false, true, false⟩, ⟨false, false, true⟩]).1 ∧
    CleanupAct.term 1 ∈ (cleanup [⟨false, true, false⟩, ⟨false, false, true⟩]).1 ∧
    cleanupOne 0 ⟨false, true, false⟩ = [.term 0, .waitGrace 0 5] ∧
    CleanupAct.kill 1 ∈ cleanupOne 1 ⟨false, false, true⟩ ∧
    (cleanup [⟨false, true, false⟩, ⟨false, false, true⟩]).2 = 0 :=
  ⟨cleanup_spec.1,
   cleanup_spec.2.2.2.1 [⟨false, true, false⟩, ⟨false, false, true⟩] 0 ⟨false, true, false⟩ rfl,
   cleanup_spec.2.2.2.1 [⟨false, true, false⟩, ⟨false, false, true⟩] 1 ⟨false, false, true⟩ rfl,
   cleanup_spec.2.2.2.2.2.2.1 0 ⟨false, true, false⟩ rfl rfl,
   cleanup_spec.2.2.2.2.2.2.2 1 ⟨false, false, true⟩ rfl,
   cleanup_spec.2.1 [⟨false, true, false⟩, ⟨false, false, true⟩]⟩

/-- A tracked process that terminates gracefully within the grace window. -/
def gracefulProc : ProcBehavior := ⟨false, true, false⟩

/-- Claim C8: the code installs `cleanup` itself as the SIGINT/SIGTERM
handler with no re-entrancy guard, so a second interrupt delivered while
cleanup is handling the first of two tracked processes re-runs the whole
teardown nested inside the first run: the first process receives two
`terminate` requests, the nested `sys.exit(0)` is swallowed by the outer
bare `except:` (which then issues a spurious `kill`), and the resulting
call sequence differs from the single-run sequence — the second interrupt
is neither ignored nor queued. -/
theorem cleanup_reentrant_reruns :
    (cleanup [gracefulProc, gracefulProc]).1 =
      [.term 0, .waitGrace 0 5, .term 1, .waitGrace 1 5] ∧
    (cleanup_reentrant [gracefulProc, gracefulProc] 0).1 =
      [.term 0, .term 0, .waitGrace 0 5, .term 1, .waitGrace 1 5,
       .kill 0, .term 1, .waitGrace 1 5] ∧
    ((cleanup_reentrant [gracefulProc, gracefulProc] 0).1.count (CleanupAct.term 0)) = 2 ∧
    ((cleanup [gracefulProc, gracefulProc]).1.count (CleanupAct.term 0)) = 1 ∧
    (cleanup_reentrant [gracefulProc, gracefulProc] 0).1 ≠
      (cleanup [gracefulProc, gracefulProc]).1 := by
  refine ⟨rfl, rfl, rfl, rfl, by decide⟩

/-! Readiness waiter. -/

/-- Characterisation of the poll loop: with `fuel` remaining iterations
starting at tick `k`, it returns true iff some polled tick hits an open
port, and it performs at most `fuel` polls. -/
theorem waitLoop_spec (netAt : Nat → Net) (port : Nat) :
    ∀ fuel k,
      ((waitLoop netAt port fuel k).1 = true ↔
        ∃ j, j < fuel ∧ waitProbe netAt port (k + j) = true) ∧
      (waitLoop netAt port fuel k).2 ≤ fuel := by
  intro fuel
  induction fuel with
  | zero => intro k; simp [waitLoop]
  | succ n ih =>
    intro k
    rw [waitLoop]
    by_cases h : waitProbe netAt port k = true
    · rw [if_pos h]
      refine ⟨?_, by omega⟩
      simp only [true_iff]
      exact ⟨0, by omega, by simpa using h⟩
    · rw [if_neg h]
      refine ⟨?_, ?_⟩
      · constructor
        · intro hr
          rcases (ih (k + 1)).1.mp hr with ⟨j, hj, hp⟩
          exact ⟨j + 1, by omega, by rw [show k + (j + 1) = k + 1 + j by omega]; exact hp⟩
        · rintro ⟨j, hj, hp⟩
          cases j with
          | zero => exact absurd (by simpa using hp) h
          | succ j' =>
            exact (ih (k + 1)).1.mpr
              ⟨j', by omega, by rw [show k + 1 + j' = k + (j' + 1) by omega]; exact hp⟩
      · have := (ih (k + 1)).2
        simp only []
        omega

/-- Claim C4 (amended): `wait_for_service` returns true iff the port is
observed open at one of its polls, which happen at half-second ticks
strictly before `timeout` seconds have elapsed (ticks `k < 2 * timeout`);
it performs at most `2 * timeout` polls, so it returns within `timeout`
seconds plus one poll interval of being called rather than blocking
indefinitely. -/
theorem wait_for_service_strict (netAt : Nat → Net) (port : Nat) (t : Nat) :
    ((wait_for_service netAt port t).1 = true ↔
      ∃ k, k < 2 * t ∧ waitProbe netAt port k = true) ∧
    (wait_for_service netAt port t).2 ≤ 2 * t := by
  have h := waitLoop_spec netAt port (2 * t) 0
  simpa [wait_for_service] using h

/-- TCP stack where every port starts answering at tick 2, i.e. at elapsed
time exactly 1.0 second. -/
def lateNet : Nat → Net := fun k => ⟨fun _ => if 2 ≤ k then 0 else 111⟩

/-- Claim C4, counterexample: with a 1-second timeout against a port that
becomes open at exactly 1.0 second elapsed (tick 2), the port does become
open at or before `t` seconds elapse, yet `wait_for_service` returns
false — the strict `while elapsed < timeout` guard never samples the
deadline instant, refuting the claimed "at or before `t`" iff. -/
theorem wait_for_service_boundary_cex :
    waitProbe lateNet 3002 2 = true ∧
    (∃ k, k ≤ 2 * 1 ∧ waitProbe lateNet 3002 k = true) ∧
    (wait_for_service lateNet 3002 1).1 = false :=
  ⟨rfl, ⟨2, Nat.le_refl 2, rfl⟩, rfl⟩

/-! External runtime bootstrap. -/

/-- Runtime already answering its health probe. -/
def ollamaHealthy : OllamaEnv := ⟨true, .ok, true⟩

/-- Runtime initially down; the spawn succeeds and the runtime answers
after the grace sleep. -/
def ollamaBootedOk : OllamaEnv := ⟨false, .ok, true⟩

/-- Runtime initially down and the `ollama` binary not installed. -/
def ollamaNotInstalled : OllamaEnv := ⟨false, .notFound, false⟩

/-- Claim C7: the bootstrap probes the health endpoint first and is a
no-op success when the runtime already answers; otherwise it issues one
detached spawn request, sleeps the fixed 3-second grace period, re-probes
exactly once and returns that probe's result; a missing binary
(`FileNotFoundError`) or any other spawn exception yields `false` without
raising; and the startup of `main` calls `start_service` for the same
fixed service list whatever the bootstrap environment did — the
coordinator proceeds regardless. -/
theorem ensure_runtime_spec :
    (∀ env : OllamaEnv, env.healthyBefore = true →
      ensure_runtime env = (true, [.probe true])) ∧
    (∀ env : OllamaEnv, env.healthyBefore = false → env.spawnRes = .ok →
      ensure_runtime env =
        (env.healthyAfter,
         [.probe false, .spawnRequest, .sleepSecs 3, .probe env.healthyAfter] ++
           (if env.healthyAfter then [.startedOkMsg] else [.mayNotHaveStartedMsg]))) ∧
    (∀ env : OllamaEnv, env.healthyBefore = false → env.spawnRes = .notFound →
      ensure_runtime env = (false, [.probe false, .spawnRequest, .notFoundMsg])) ∧
    (∀ (env : OllamaEnv) (m : String), env.healthyBefore = false →
      env.spawnRes = .otherErr m →
      ensure_runtime env = (false, [.probe false, .spawnRequest, .failedMsg m])) ∧
    (∀ args oenv senv, serviceCalls (main_startup args oenv senv) =
      ["ml_api", "chatbot_backend"] ++
        (if args.no_frontend then [] else ["frontend"])) := by
  refine ⟨?_, ?_, ?_, ?_, ?_⟩
  · intro env h
    simp [ensure_runtime, check_ollama, h]
  · intro env h hs
    cases hA : env.healthyAfter <;>
      simp [ensure_runtime, check_ollama, start_ollama, h, hs, hA]
  · intro env h hs
    simp [ensure_runtime, check_ollama, start_ollama, h, hs]
  · intro env m h hs
    simp [ensure_runtime, check_ollama, start_ollama, h, hs]
  · intro args oenv senv
    cases hno : args.no_ollama <;> cases hnf : args.no_frontend <;>
      cases hb : oenv.healthyBefore <;>
      rcases h1 : (start_service senv SERVICES_ml_api).ret with _ | p1 <;>
      rcases h2 : (start_service senv SERVICES_chatbot_backend).ret with _ | p2 <;>
      rcases h3 : (start_service senv SERVICES_frontend).ret with _ | p3 <;>
      simp [main_startup, serviceCalls, check_ollama, hno, hnf, hb, h1, h2, h3]

/-- Claim C7, witness: the three bootstrap environments and one full
startup — the service list is attempted even when the runtime binary is
missing. -/
theorem ensure_runtime_spec_witness :
    ensure_runtime ollamaHealthy = (true, [.probe true]) ∧
    ensure_runtime ollamaBootedOk =
      (true, [.probe false, .spawnRequest, .sleepSecs 3, .probe true, .startedOkMsg]) ∧
    ensure_runtime ollamaNotInstalled =
      (false, [.probe false, .spawnRequest, .notFoundMsg]) ∧
    serviceCalls (main_startup ⟨false, false⟩ ollamaNotInstalled envAllClear) =
      ["ml_api", "chatbot_backend", "frontend"] :=
  ⟨ensure_runtime_spec.1 ollamaHealthy rfl,
   ensure_runtime_spec.2.1 ollamaBootedOk rfl rfl,
   ensure_runtime_spec.2.2.1 ollamaNotInstalled rfl rfl,
   ensure_runtime_spec.2.2.2.2 ⟨false, false⟩ ollamaNotInstalled envAllClear⟩

end Datanyx

namespace MlApi

/-- Claim C9: `classify_yield` is total on the integers, returns one of
exactly four categories, maps 6 to HIGH, 5 to GOOD, 4 to MEDIUM and every
other integer (the final `else`, including values outside the documented
3-6 range such as 7) to LOW, and the returned record always carries the
input `harvest_cycle` unchanged. -/
theorem classify_yield_spec :
    (∀ n : Int, (classify_yield n).harvest_cycle = n) ∧
    (∀ n : Int, (classify_yield n).category = "HIGH" ∨
      (classify_yield n).category = "GOOD" ∨
      (classify_yield n).category = "MEDIUM" ∨
      (classify_yield n).category = "LOW") ∧
    (classify_yield 6).category = "HIGH" ∧
    (classify_yield 5).category = "GOOD" ∧
    (classify_yield 4).category = "MEDIUM" ∧
    (∀ n : Int, n ≠ 6 → n ≠ 5 → n ≠ 4 → (classify_yield n).category = "LOW") := by
  refine ⟨?_, ?_, rfl, rfl, rfl, ?_⟩
  · intro n
    unfold classify_yield
    split
    · rfl
    · split
      · rfl
      · split <;> rfl
  · intro n
    unfold classify_yield
    split
    · exact Or.inl rfl
    · split
      · exact Or.inr (Or.inl rfl)
      · split
        · exact Or.inr (Or.inr (Or.inl rfl))
        · exact Or.inr (Or.inr (Or.inr rfl))
  · intro n h6 h5 h4
    simp [classify_yield, h6, h5, h4]

/-- Claim C9, witness: 7 lies outside the documented range and is mapped
to LOW with its cycle carried through. -/
theorem classify_yield_spec_witness :
    (classify_yield 7).category = "LOW" ∧ (classify_yield 7).harvest_cycle = 7 :=
  ⟨classify_yield_spec.2.2.2.2.2 7 (by decide) (by decide) (by decide),
   classify_yield_spec.1 7⟩

/-- The one-hot block of `prepare_features` is exactly the one-hot
encoding of the (defaulted) species against `MUSHROOM_VARIETIES`. -/
theorem oneHotFields_prepare (d : PredictInput) :
    oneHotFields (prepare_features d) =
      MUSHROOM_VARIETIES.map (oneHot (d.species.getD "Oyster")) := rfl

/-- Claim C10: `prepare_features` is total — every missing field is
replaced by its fixed default (`species` defaulting to `"Oyster"`, whose
one-hot row is `[0, 0, 1, 0, 0]`); when the species is one of the five
known varieties exactly one one-hot field is 1; an unrecognized species
silently yields all five one-hot fields 0. -/
theorem prepare_features_spec :
    (∀ d, d.humidity_pct = none → (prepare_features d).humidity_pct = 85) ∧
    (∀ d, d.co2_ppm = none → (prepare_features d).CO2_ppm = 800) ∧
    (∀ d, d.substrate_moisture = none →
      (prepare_features d).substrate_moisture_pct = 65) ∧
    (∀ d, d.light_lux = none → (prepare_features d).light_lux = 200) ∧
    (∀ d, d.water_quality_index = none →
      (prepare_features d).water_quality_index = 80) ∧
    (∀ d, d.temperature_c = none → (prepare_features d).temp_C = 22) ∧
    (∀ d, d.species = none → oneHotFields (prepare_features d) = [0, 0, 1, 0, 0]) ∧
    (∀ d v, d.species = some v → v ∈ MUSHROOM_VARIETIES →
      oneHotFields (prepare_features d) = MUSHROOM_VARIETIES.map (oneHot v) ∧
      (oneHotFields (prepare_features d)).count 1 = 1) ∧
    (∀ d v, d.species = some v → v ∉ MUSHROOM_VARIETIES →
      oneHotFields (prepare_features d) = [0, 0, 0, 0, 0]) := by
  refine ⟨?_, ?_, ?_, ?_, ?_, ?_, ?_, ?_, ?_⟩
  · intro d h; simp [prepare_features, h]
  · intro d h; simp [prepare_features, h]
  · intro d h; simp [prepare_features, h]
  · intro d h; simp [prepare_features, h]
  · intro d h; simp [prepare_features, h]
  · intro d h; simp [prepare_features, h]
  · intro d h
    rw [oneHotFields_prepare, h]
    decide
  · intro d v hd hv
    have h1 : oneHotFields (prepare_features d) = MUSHROOM_VARIETIES.map (oneHot v) := by
      rw [oneHotFields_prepare, hd]
      rfl
    refine ⟨h1, ?_⟩
    rw [h1]
    simp [MUSHROOM_VARIETIES] at hv
    rcases hv with rfl | rfl | rfl | rfl | rfl <;> decide
  · intro d v hd hv
    rw [oneHotFields_prepare, hd]
    simp only [MUSHROOM_VARIETIES, List.mem_cons, List.not_mem_nil, or_false,
      not_or] at hv
    obtain ⟨n1, n2, n3, n4, n5⟩ := hv
    simp [MUSHROOM_VARIETIES, oneHot, n1, n2, n3, n4, n5]

/-- A request naming a known species and omitting every environmental
field. -/
def sampleShiitake : PredictInput := ⟨some "Shiitake", none, none, none, none, none, none⟩

/-- A request naming a species outside the known five. -/
def samplePortobello : PredictInput :=
  ⟨some "Portobello", none, none, none, none, none, none⟩

/-- Claim C10, witness: a Shiitake request with every field missing gets
the defaults and the single Shiitake one-hot; a Portobello request gets
the all-zero one-hot row. -/
theorem prepare_features_spec_witness :
    (prepare_features sampleShiitake).humidity_pct = 85 ∧
    (prepare_features sampleShiitake).temp_C = 22 ∧
    oneHotFields (prepare_features sampleShiitake) = [0, 0, 0, 0, 1] ∧
    (oneHotFields (prepare_features sampleShiitake)).count 1 = 1 ∧
    oneHotFields (prepare_features samplePortobello) = [0, 0, 0, 0, 0] :=
  ⟨prepare_features_spec.1 sampleShiitake rfl,
   prepare_features_spec.2.2.2.2.2.1 sampleShiitake rfl,
   ((prepare_features_spec.2.2.2.2.2.2.2.1 sampleShiitake "Shiitake" rfl
      (by decide)).1).trans (by decide),
   (prepare_features_spec.2.2.2.2.2.2.2.1 sampleShiitake "Shiitake" rfl
      (by decide)).2,
   prepare_features_spec.2.2.2.2.2.2.2.2 samplePortobello "Portobello" rfl
     (by decide)⟩

end MlApi
